import Mathlib

/-!
Shallow embedding of the filter-to-query compiler and row-to-spreadsheet
projector of `src/app.py` (a small FastAPI app querying the SECOP open-data
API). Pure string functions are translated directly; the two HTTP handlers
(`home` and `export_xlsx`) are modelled as functions parameterised by a fetch
oracle `Params → Response`, returning the list of requests actually issued
together with their result, so that fetch/retry behaviour is provable.
Strings are modelled at the level of their character lists; remote-record
fields are `Option String` (absent or a string value), which covers every
case the handlers' `r.get(...) or default` chains distinguish.
-/

namespace Secop

/-- The single-quote character (code point 39), kept as a named constant. -/
def quoteChar : Char := Char.ofNat 39

/-- One-character string holding a single quote. -/
def sq : String := String.mk [quoteChar]

/-- Character-level body of `soql_escape`: Python `v.replace("'", "''")`,
doubling every single-quote character. -/
def escChars : List Char → List Char
  | [] => []
  | c :: rest =>
    if c = quoteChar then quoteChar :: quoteChar :: escChars rest
    else c :: escChars rest

/-- `soql_escape` from `src/app.py` line 13: `v.replace("'", "''")`. -/
def soql_escape (v : String) : String := String.mk (escChars v.data)

/-- `sanitize_like_term` from `src/app.py` lines 16-18:
`v.replace("%", "").replace("_", "")` followed by `soql_escape`.
Replacing a single character by the empty string is removal of that
character, i.e. a filter over the character list. -/
def sanitize_like_term (v : String) : String :=
  soql_escape (String.mk ((v.data.filter (fun c => !(c == '%'))).filter (fun c => !(c == '_'))))

/-- Python `str.strip` whitespace set (ASCII): space, tab, newline,
carriage return, vertical tab (11), form feed (12). -/
def pyWs (c : Char) : Bool :=
  c == ' ' || c == '\t' || c == '\n' || c == '\r' || c == Char.ofNat 11 || c == Char.ofNat 12

/-- Python `str.strip()`: drop leading and trailing whitespace. -/
def pyStrip (s : String) : String :=
  String.mk (((s.data.dropWhile pyWs).reverse.dropWhile pyWs).reverse)

/-- Helper for `pySplitComma`, accumulating the current field reversed. -/
def splitCommaAux : List Char → List Char → List String
  | [], acc => [String.mk acc.reverse]
  | c :: rest, acc =>
    if c = ',' then String.mk acc.reverse :: splitCommaAux rest []
    else splitCommaAux rest (c :: acc)

/-- Python `s.split(",")`: keeps empty fields, `"".split(",") = [""]`. -/
def pySplitComma (s : String) : List String := splitCommaAux s.data []

/-- Python `str.upper()` restricted to ASCII letters (the only case the
compiled queries rely on). -/
def pyUpper (s : String) : String := String.mk (s.data.map Char.toUpper)

/-- Python `c.startswith("V1.")` on the character list. -/
def startsV1 : List Char → Bool
  | 'V' :: '1' :: '.' :: _ => true
  | _ => false

/-- Python `s.replace("V1.", "")` (line 164): remove every occurrence of the
substring `V1.`, scanning left to right. -/
def replaceV1 : List Char → List Char
  | 'V' :: '1' :: '.' :: rest => replaceV1 rest
  | c :: rest => c :: replaceV1 rest
  | [] => []

/-- Python `" AND ".join(xs)`-style join: empty for `[]`, no separator for a
singleton. -/
def joinWith (sep : String) : List String → String
  | [] => ""
  | [x] => x
  | x :: xs => x ++ sep ++ joinWith sep xs

/-- Category-token normalisation of `build_where_and_order` lines 26-32:
prefix `V1.` unless already present. -/
def normCodigo (c : String) : String :=
  if startsV1 c.data then c else "V1." ++ c

/-- The list `lista_codigos` of `build_where_and_order` lines 24-32: split on
commas, strip, drop empties, normalise, escape. -/
def codigoTokens (codigos : String) : List String :=
  (pySplitComma codigos).filterMap (fun c0 =>
    let c := pyStrip c0
    if c = "" then none else some (soql_escape (normCodigo c)))

/-- Wrap a token in single quotes, as in `f"'{c}'"`. -/
def quoteWrap (x : String) : String := sq ++ x ++ sq

/-- `", ".join(f"'{c}'" for c in xs)`. -/
def inQuotedList (xs : List String) : String := joinWith ", " (xs.map quoteWrap)

/-- The category sub-clause (lines 33-35): contributed only when the token
list is non-empty. -/
def codigoClause (codigos : String) : Option String :=
  let ts := codigoTokens codigos
  if ts = [] then none
  else some ("codigo_principal_de_categoria IN (" ++ inQuotedList ts ++ ")")

/-- The list `estados` of line 39: split on commas, strip, drop empties. -/
def estadoTokens (estado : String) : List String :=
  (pySplitComma estado).filterMap (fun e0 =>
    let e := pyStrip e0
    if e = "" then none else some e)

/-- The status sub-clause (lines 38-43): uppercase then escape each token. -/
def estadoClause (estado : String) : Option String :=
  let es := estadoTokens estado
  if es = [] then none
  else some ("UPPER(estado_del_procedimiento) IN ("
    ++ inQuotedList (es.map (fun e => soql_escape (pyUpper e))) ++ ")")

/-- Separator class of the regex `[,\s]+` on line 47: comma or whitespace. -/
def sepChar (c : Char) : Bool := c == ',' || pyWs c

/-- Helper for `splitTerms`, accumulating the current term reversed. -/
def splitTermsAux : List Char → List Char → List String
  | [], acc => if acc = [] then [] else [String.mk acc.reverse]
  | c :: rest, acc =>
    if sepChar c then
      if acc = [] then splitTermsAux rest []
      else String.mk acc.reverse :: splitTermsAux rest []
    else splitTermsAux rest (c :: acc)

/-- `[t for t in re.split(r"[,\s]+", texto) if t]` of line 47: the maximal
runs of non-separator characters. -/
def splitTerms (texto : String) : List String := splitTermsAux texto.data []

/-- The per-term pattern clause of lines 49-54. The `fields` list holds the
single entry `descripci_n_del_procedimiento`, so the `" OR ".join` over it is
the lone clause wrapped in parentheses. -/
def termClause (t : String) : String :=
  "(UPPER(descripci_n_del_procedimiento) LIKE " ++ sq ++ "%"
    ++ pyUpper (sanitize_like_term t) ++ "%" ++ sq ++ ")"

/-- The keyword sub-clause (lines 46-55): per-term clauses joined by
`" AND "`. -/
def textoClause (texto : String) : Option String :=
  let ts := splitTerms texto
  if ts = [] then none
  else some (joinWith " AND " (ts.map termClause))

/-- `order_map.get(orden, order_map["recientes"])` of lines 57-63. -/
def orderMap (orden : String) : String :=
  if orden = "recientes" then "fecha_de_publicacion_del DESC"
  else if orden = "antiguos" then "fecha_de_publicacion_del ASC"
  else if orden = "mayor_valor" then "precio_base DESC, valor_estimado DESC"
  else if orden = "menor_valor" then "precio_base ASC, valor_estimado ASC"
  else "fecha_de_publicacion_del DESC"

/-- Python truthiness of an optional string: `None` and `""` are falsy.
Returns the string when truthy. -/
def optTruthy (o : Option String) : Option String :=
  match o with
  | none => none
  | some s => if s = "" then none else some s

/-- `build_where_and_order` of `src/app.py` lines 20-65: the three optional
sub-clauses in fixed order, joined with `" AND "`; `None` when no sub-clause
contributed. -/
def build_where_and_order (codigos estado texto : Option String) (orden : String) :
    Option String × String :=
  let condiciones :=
    (match optTruthy codigos with
      | some c => (codigoClause c).toList
      | none => []) ++
    (match optTruthy estado with
      | some e => (estadoClause e).toList
      | none => []) ++
    (match optTruthy texto with
      | some t => (textoClause t).toList
      | none => [])
  let order_clause := orderMap orden
  let where_clause := if condiciones = [] then none else some (joinWith " AND " condiciones)
  (where_clause, order_clause)

/-- One remote record: every field access in the handlers tolerates absence,
so each field is optional. -/
structure ResultRow where
  codigo_principal_de_categoria : Option String
  referencia_del_proceso : Option String
  estado_del_procedimiento : Option String
  entidad : Option String
  departamento_entidad : Option String
  descripci_n_del_procedimiento : Option String
  precio_base : Option String
  valor_estimado : Option String
  fecha_de_publicacion_del : Option String
deriving DecidableEq

/-- The query parameters of one HTTP GET against the dataset endpoint. -/
structure Params where
  limit : Nat
  offset : Nat
  order : Option String
  whereExpr : Option String
deriving DecidableEq

/-- A remote response: HTTP status and decoded JSON body. -/
structure Response where
  status : Nat
  body : List ResultRow
deriving DecidableEq

/-- `home` of `src/app.py` lines 67-105, data-fetching part: fixed page size
20, fetch only when the where-clause is truthy, keep the body only on
status 200. Returns the issued requests and the `data` list. -/
def home (fetch : Params → Response) (codigos estado texto : Option String)
    (orden : String) (page : Nat) : List Params × List ResultRow :=
  let limit := 20
  let offset := (page - 1) * limit
  let wo := build_where_and_order codigos estado texto orden
  match optTruthy wo.1 with
  | none => ([], [])
  | some w =>
    let p : Params := { limit := limit, offset := offset, order := some wo.2, whereExpr := some w }
    let resp := fetch p
    ([p], if resp.status = 200 then resp.body else [])

/-- A spreadsheet cell of the Valor column: the source keeps the field's
string when present and falls back to the number `0`. -/
inductive CellValue where
  | str : String → CellValue
  | num : Nat → CellValue
deriving DecidableEq

/-- Python `o or d` for an optional string `o` and non-empty default `d`. -/
def pyOrS (o : Option String) (d : String) : String :=
  match optTruthy o with
  | some s => s
  | none => d

/-- The seven projected columns of one exported row. -/
structure ExportRecord where
  codigo : String
  estado : String
  entidad : String
  departamento : String
  descripcion : String
  valor : CellValue
  fecha : String
deriving DecidableEq

/-- The row projection of `export_xlsx` lines 162-189. -/
def projectRow (r : ResultRow) : ExportRecord :=
  let codigo := String.mk (replaceV1 (pyOrS r.codigo_principal_de_categoria "").data)
  let referencia := pyOrS r.referencia_del_proceso "N/A"
  let codigo_full :=
    if codigo ≠ "" ∨ referencia ≠ "" then codigo ++ " / " ++ referencia else "N/A"
  let estado := pyOrS r.estado_del_procedimiento "N/A"
  let entidad := pyOrS r.entidad "N/A"
  let depto := pyOrS r.departamento_entidad "N/A"
  let descripcion := pyOrS r.descripci_n_del_procedimiento "N/A"
  let valor : CellValue :=
    match optTruthy r.precio_base with
    | some s => CellValue.str s
    | none =>
      match optTruthy r.valor_estimado with
      | some s => CellValue.str s
      | none => CellValue.num 0
  let f10 := String.mk ((pyOrS r.fecha_de_publicacion_del "").data.take 10)
  let fecha := if f10 = "" then "N/A" else f10
  { codigo := codigo_full, estado := estado, entidad := entidad, departamento := depto,
    descripcion := descripcion, valor := valor, fecha := fecha }

/-- The failure conditions `export_xlsx` raises as `HTTPException`. -/
inductive ExportError where
  | fetchFailure
  | nothingToExport
deriving DecidableEq

/-- The HTTP status code of each `HTTPException` raised by `export_xlsx`. -/
def errStatus : ExportError → Nat
  | ExportError.fetchFailure => 502
  | ExportError.nothingToExport => 204

/-- The initial query parameters of `export_xlsx` lines 124-129:
`$where` is attached only when the clause is truthy. -/
def exportInitParams (codigos estado texto : Option String) (orden : String)
    (page limit : Nat) : Params :=
  let wo := build_where_and_order codigos estado texto orden
  { limit := limit, offset := (page - 1) * limit, order := some wo.2,
    whereExpr := optTruthy wo.1 }

/-- The fetch-and-retry block of `export_xlsx` lines 131-139: on status 400
or 422 of the first response, retry once with `$order` removed; then
`raise_for_status` (error on any status at or above 400). Returns the issued
requests and the rows or the failure. -/
def exportFetch (fetch : Params → Response) (p0 : Params) :
    List Params × Except ExportError (List ResultRow) :=
  let r1 := fetch p0
  if r1.status = 400 ∨ r1.status = 422 then
    let p1 : Params := { p0 with order := none }
    let r2 := fetch p1
    ([p0, p1],
      if 400 ≤ r2.status then Except.error ExportError.fetchFailure else Except.ok r2.body)
  else
    ([p0],
      if 400 ≤ r1.status then Except.error ExportError.fetchFailure else Except.ok r1.body)

/-- `export_xlsx` of `src/app.py` lines 115-202, modelled up to the list of
projected records (the spreadsheet serialisation itself is pure formatting):
fetch with retry, then the empty-result condition of lines 141-142, then the
projection of lines 162-189. -/
def export_xlsx (fetch : Params → Response) (codigos estado texto : Option String)
    (orden : String) (page limit : Nat) :
    List Params × Except ExportError (List ExportRecord) :=
  let p0 := exportInitParams codigos estado texto orden page limit
  let tr := exportFetch fetch p0
  (tr.1,
    match tr.2 with
    | Except.error e => Except.error e
    | Except.ok rows =>
      if rows = [] then Except.error ExportError.nothingToExport
      else Except.ok (rows.map projectRow))

/-- A character list in which every single quote is part of a doubled pair
(greedy pairing from the left): no unescaped single quote. -/
def noLoneQuote : List Char → Bool
  | [] => true
  | [c] => if c = quoteChar then false else true
  | c :: c2 :: rest =>
    if c = quoteChar then
      if c2 = quoteChar then noLoneQuote rest else false
    else noLoneQuote (c2 :: rest)

/-- Undo the escaping: collapse each doubled single quote back to one. -/
def unescapeQuotes : List Char → List Char
  | [] => []
  | [c] => [c]
  | c :: c2 :: rest =>
    if c = quoteChar then
      if c2 = quoteChar then c :: unescapeQuotes rest
      else c :: unescapeQuotes (c2 :: rest)
    else c :: unescapeQuotes (c2 :: rest)

/-- Modelled from the spec: the remote pattern-match operator (`LIKE` of the
SoQL-like remote query language, §6/glossary, not part of this repository):
`%` matches any character sequence, `_` matches any single character, any
other pattern character matches itself. -/
def likeMatch : List Char → List Char → Bool
  | [], t => t.isEmpty
  | c :: ps, t =>
    if c = '%' then t.tails.any (fun s => likeMatch ps s)
    else
      match t with
      | [] => false
      | c2 :: ts => (c = '_' || c = c2) && likeMatch ps ts

/-- The remote record with every field absent. -/
def emptyRow : ResultRow := ⟨none, none, none, none, none, none, none, none, none⟩

/-- A remote record whose category value contains `V1.` in the middle
without starting with it. -/
def midV1Row : ResultRow := ⟨some "47V1.131", none, none, none, none, none, none, none, none⟩

theorem escChars_eq_flatMap (l : List Char) :
    escChars l = l.flatMap (fun c => if c = quoteChar then [quoteChar, quoteChar] else [c]) := by
  induction l with
  | nil => rfl
  | cons c rest ih =>
    by_cases hc : c = quoteChar <;> simp [escChars, hc, ih]

theorem noLoneQuote_cons_ne (c : Char) (l : List Char) (hc : ¬c = quoteChar) :
    noLoneQuote (c :: l) = noLoneQuote l := by
  cases l with
  | nil => simp [noLoneQuote, hc]
  | cons x xs => simp [noLoneQuote, hc]

theorem noLoneQuote_escChars (l : List Char) : noLoneQuote (escChars l) = true := by
  induction l with
  | nil => rfl
  | cons c rest ih =>
    by_cases hc : c = quoteChar
    · subst hc
      simpa [escChars, noLoneQuote] using ih
    · rw [show escChars (c :: rest) = c :: escChars rest by simp [escChars, hc],
        noLoneQuote_cons_ne c _ hc]
      exact ih

theorem unescapeQuotes_cons_ne (c : Char) (l : List Char) (hc : ¬c = quoteChar) :
    unescapeQuotes (c :: l) = c :: unescapeQuotes l := by
  cases l with
  | nil => rfl
  | cons x xs => simp [unescapeQuotes, hc]

theorem unescape_escChars (l : List Char) : unescapeQuotes (escChars l) = l := by
  induction l with
  | nil => rfl
  | cons c rest ih =>
    by_cases hc : c = quoteChar
    · subst hc
      simpa [escChars, unescapeQuotes] using ih
    · rw [show escChars (c :: rest) = c :: escChars rest by simp [escChars, hc],
        unescapeQuotes_cons_ne c _ hc, ih]

theorem mem_of_mem_escChars (a : Char) (l : List Char) (h : a ∈ escChars l) : a ∈ l := by
  induction l with
  | nil =>
    simp [escChars] at h
  | cons c rest ih =>
    by_cases hc : c = quoteChar
    · subst hc
      simp [escChars] at h
      rcases h with h | h
      · rw [h]; exact List.mem_cons_self _ _
      · exact List.mem_cons_of_mem _ (ih h)
    · simp [escChars, hc] at h
      rcases h with h | h
      · rw [h]; exact List.mem_cons_self _ _
      · exact List.mem_cons_of_mem _ (ih h)

theorem likeMatch_nil (t : List Char) : likeMatch [] t = t.isEmpty := by
  cases t <;> rfl

theorem likeMatch_pct_cons (ps : List Char) (t : List Char) :
    likeMatch ('%' :: ps) t = t.tails.any (fun s => likeMatch ps s) := by
  rw [likeMatch.eq_def]
  simp only []
  exact if_pos trivial

theorem likeMatch_single_pct (t : List Char) : likeMatch ['%'] t = true := by
  have h0 : ([] : List Char) ∈ t.tails := (List.mem_tails [] t).2 List.nil_suffix
  rw [likeMatch_pct_cons, List.any_eq_true]
  exact ⟨[], h0, by rw [likeMatch_nil]; rfl⟩

theorem likeMatch_double_pct (t : List Char) : likeMatch ['%', '%'] t = true := by
  have ht : t ∈ t.tails := (List.mem_tails t t).2 (List.suffix_refl t)
  rw [likeMatch_pct_cons, List.any_eq_true]
  exact ⟨t, ht, likeMatch_single_pct t⟩

/-- C4: `soql_escape` maps a string to the same string with every single
quote doubled, its output contains no unescaped single quote (every quote is
part of an adjacent doubled pair), and collapsing each doubled quote back to
one recovers the input. -/
theorem c4_escape_literal (s : String) :
    soql_escape s =
      String.mk (s.data.flatMap
        (fun c => if c = quoteChar then [quoteChar, quoteChar] else [c]))
    ∧ noLoneQuote (soql_escape s).data = true
    ∧ String.mk (unescapeQuotes (soql_escape s).data) = s := by
  refine ⟨congrArg String.mk (escChars_eq_flatMap s.data), ?_, ?_⟩
  · exact noLoneQuote_escChars s.data
  · show String.mk (unescapeQuotes (escChars s.data)) = s
    rw [unescape_escChars]

/-- C5: `sanitize_like_term` output contains neither `%` nor `_`, and equals
`soql_escape` applied to the input with every `%` and every `_` removed. -/
theorem c5_sanitize_wildcards (s : String) :
    '%' ∉ (sanitize_like_term s).data
    ∧ '_' ∉ (sanitize_like_term s).data
    ∧ sanitize_like_term s =
        soql_escape (String.mk
          ((s.data.filter (fun c => !(c == '%'))).filter (fun c => !(c == '_')))) := by
  refine ⟨?_, ?_, rfl⟩
  · intro h
    have h2 : '%' ∈ (s.data.filter (fun c => !(c == '%'))).filter (fun c => !(c == '_')) :=
      mem_of_mem_escChars _ _ h
    have h3 : '%' ∈ s.data.filter (fun c => !(c == '%')) := List.mem_of_mem_filter h2
    have h4 := List.of_mem_filter h3
    simp at h4
  · intro h
    have h2 : '_' ∈ (s.data.filter (fun c => !(c == '%'))).filter (fun c => !(c == '_')) :=
      mem_of_mem_escChars _ _ h
    have h4 := List.of_mem_filter h2
    simp at h4

/-- C1: projecting the all-absent row yields "N/A" in Estado, Entidad,
Departamento, Descripcion and Fecha and the number 0 in Valor, but the
claimed "N/A" in the Code column is wrong: the code renders " / N/A",
because the reference field is defaulted to the truthy string "N/A" before
the both-absent guard, whose "N/A" branch therefore cannot fire. -/
theorem c1_empty_row_projection :
    projectRow emptyRow =
      { codigo := " / N/A", estado := "N/A", entidad := "N/A", departamento := "N/A",
        descripcion := "N/A", valor := CellValue.num 0, fecha := "N/A" }
    ∧ ((projectRow emptyRow).codigo == "N/A") = false := by
  exact ⟨by decide, by decide⟩

/-- C6 fails on the code at two concrete rows: on the all-absent row the
Code column is " / N/A", not the claimed "N/A"; and on a category value
containing "V1." in the middle the code removes that occurrence too, while
the claim (leading-prefix strip) would leave the value unchanged. -/
theorem c6_code_counterexample :
    (projectRow emptyRow).codigo = " / N/A"
    ∧ ((projectRow emptyRow).codigo == "N/A") = false
    ∧ (projectRow midV1Row).codigo = "47131 / N/A"
    ∧ ((projectRow midV1Row).codigo == "47V1.131 / N/A") = false := by
  refine ⟨by decide, by decide, by decide, by decide⟩

/-- C6 (amended): for every result row the Code column equals the category
field (empty when absent) with every occurrence of the substring "V1."
removed, concatenated with " / " and the reference field (or the literal
"N/A" when the reference field is absent); the both-absent "N/A" branch is
unreachable, so this shape holds for every row, and the all-absent row
yields " / N/A". -/
theorem c6_code_column (r : ResultRow) :
    (projectRow r).codigo =
      String.mk (replaceV1 (pyOrS r.codigo_principal_de_categoria "").data)
        ++ " / " ++ pyOrS r.referencia_del_proceso "N/A" := by
  have href : pyOrS r.referencia_del_proceso "N/A" ≠ "" := by
    unfold pyOrS optTruthy
    cases r.referencia_del_proceso with
    | none => simp
    | some s =>
      by_cases hs : s = "" <;> simp [hs]
  simp only [projectRow]
  rw [if_pos (Or.inr href)]

/-- C7: category compilation splits the raw string on commas, trims, drops
empty slots, prefixes "V1." exactly when missing, escapes, and renders the
non-empty token set as an IN-list clause; an input with no surviving tokens
contributes no clause. Shown on the claim's concrete inputs and as a
clause-shape equation for every input. -/
theorem c7_codigo_compilation :
    codigoTokens "47131504" = ["V1.47131504"]
    ∧ codigoTokens "V1.47131504" = ["V1.47131504"]
    ∧ codigoTokens "a,,b" = ["V1.a", "V1.b"]
    ∧ codigoTokens "" = []
    ∧ codigoTokens "   " = []
    ∧ (∀ s : String, codigoClause s =
        if codigoTokens s = [] then none
        else some ("codigo_principal_de_categoria IN (" ++ inQuotedList (codigoTokens s) ++ ")"))
    ∧ (∀ s orden, (build_where_and_order (some s) none none orden).1 = codigoClause s)
    ∧ (∀ orden : String, (build_where_and_order (some " ,  ,") none none orden).1 = none) := by
  refine ⟨by decide, by decide, by decide, by decide, by decide, fun s => rfl, ?_, fun orden => rfl⟩
  intro s orden
  by_cases hs : s = ""
  · subst hs
    rfl
  · cases hc : codigoClause s with
    | none => simp [build_where_and_order, optTruthy, hs, hc]
    | some c => simp [build_where_and_order, optTruthy, hs, hc, joinWith]

/-- C8: keyword compilation splits the phrase on runs of whitespace or
commas, drops empties, sanitises and uppercases each term, builds one
UPPER(...) LIKE pattern clause per term over the single description field,
and joins the per-term clauses with " AND ". Shown as per-term and
clause-shape equations for every input and on concrete inputs. -/
theorem c8_texto_compilation :
    splitTerms "acero,  puente" = ["acero", "puente"]
    ∧ (∀ t : String, termClause t =
        "(UPPER(descripci_n_del_procedimiento) LIKE " ++ sq ++ "%"
          ++ pyUpper (sanitize_like_term t) ++ "%" ++ sq ++ ")")
    ∧ termClause "ac%ero" =
        "(UPPER(descripci_n_del_procedimiento) LIKE " ++ sq ++ "%ACERO%" ++ sq ++ ")"
    ∧ (∀ t : String, textoClause t =
        if splitTerms t = [] then none
        else some (joinWith " AND " ((splitTerms t).map termClause)))
    ∧ (∀ t orden, (build_where_and_order none none (some t) orden).1 = textoClause t)
    ∧ (∀ orden : String, (build_where_and_order none none (some "acero puente") orden).1 =
        some (termClause "acero" ++ " AND " ++ termClause "puente")) := by
  refine ⟨by decide, fun t => rfl, by decide, fun t => rfl, ?_, fun orden => rfl⟩
  intro t orden
  by_cases ht : t = ""
  · subst ht
    rfl
  · cases hc : textoClause t with
    | none => simp [build_where_and_order, optTruthy, ht, hc]
    | some c => simp [build_where_and_order, optTruthy, ht, hc, joinWith]

/-- C3: when the compiled filter expression is absent, interactive browsing
issues no fetch and returns the empty result set, while export still issues
a fetch whose first request carries the order expression, the page limit and
offset, but no filter parameter. -/
theorem c3_absent_filter (fetchH fetchE : Params → Response)
    (codigos estado texto : Option String) (orden : String) (page limit : Nat)
    (h : (build_where_and_order codigos estado texto orden).1 = none) :
    home fetchH codigos estado texto orden page = ([], [])
    ∧ (export_xlsx fetchE codigos estado texto orden page limit).1.head? =
        some (exportInitParams codigos estado texto orden page limit)
    ∧ (exportInitParams codigos estado texto orden page limit).whereExpr = none
    ∧ (exportInitParams codigos estado texto orden page limit).order =
        some (build_where_and_order codigos estado texto orden).2
    ∧ (exportInitParams codigos estado texto orden page limit).limit = limit
    ∧ (exportInitParams codigos estado texto orden page limit).offset = (page - 1) * limit := by
  refine ⟨?_, ?_, ?_, rfl, rfl, rfl⟩
  · simp [home, h, optTruthy]
  · simp only [export_xlsx, exportFetch]
    split
    · rfl
    · rfl
  · simp [exportInitParams, h, optTruthy]

/-- C3 witness at a concrete empty filter request. -/
theorem c3_absent_filter_w :
    home (fun _ => Response.mk 200 []) none none none "recientes" 1 = ([], [])
    ∧ (export_xlsx (fun _ => Response.mk 200 []) none none none "recientes" 1 20).1.head? =
        some (exportInitParams none none none "recientes" 1 20)
    ∧ (exportInitParams none none none "recientes" 1 20).whereExpr = none
    ∧ (exportInitParams none none none "recientes" 1 20).order =
        some (build_where_and_order none none none "recientes").2
    ∧ (exportInitParams none none none "recientes" 1 20).limit = 20
    ∧ (exportInitParams none none none "recientes" 1 20).offset = (1 - 1) * 20 :=
  c3_absent_filter (fun _ => Response.mk 200 []) (fun _ => Response.mk 200 [])
    none none none "recientes" 1 20 rfl

/-- C2: when the first export fetch is answered with status 400 or 422,
exactly one retry is issued, with the order parameter removed and the filter
parameter, limit and offset unchanged, and no third request follows; if the
second response also fails, the failure is surfaced. -/
theorem c2_order_fallback (fetch : Params → Response)
    (codigos estado texto : Option String) (orden : String) (page limit : Nat)
    (h : (fetch (exportInitParams codigos estado texto orden page limit)).status = 400
       ∨ (fetch (exportInitParams codigos estado texto orden page limit)).status = 422) :
    (export_xlsx fetch codigos estado texto orden page limit).1 =
      [exportInitParams codigos estado texto orden page limit,
        { exportInitParams codigos estado texto orden page limit with order := none }]
    ∧ ({ exportInitParams codigos estado texto orden page limit with order := none }).order = none
    ∧ ({ exportInitParams codigos estado texto orden page limit with order := none }).whereExpr =
        (exportInitParams codigos estado texto orden page limit).whereExpr
    ∧ ({ exportInitParams codigos estado texto orden page limit with order := none }).limit =
        (exportInitParams codigos estado texto orden page limit).limit
    ∧ ({ exportInitParams codigos estado texto orden page limit with order := none }).offset =
        (exportInitParams codigos estado texto orden page limit).offset
    ∧ (400 ≤ (fetch { exportInitParams codigos estado texto orden page limit
          with order := none }).status →
        (export_xlsx fetch codigos estado texto orden page limit).2 =
          Except.error ExportError.fetchFailure) := by
  refine ⟨?_, rfl, rfl, rfl, rfl, ?_⟩
  · simp only [export_xlsx, exportFetch]
    rw [if_pos h]
  · intro h2
    simp only [export_xlsx, exportFetch]
    rw [if_pos h, if_pos h2]

/-- C2 witness: a fetch oracle answering 400 to every request. -/
theorem c2_order_fallback_w :
    (export_xlsx (fun _ => Response.mk 400 []) none none none "recientes" 1 20).1 =
      [exportInitParams none none none "recientes" 1 20,
        { exportInitParams none none none "recientes" 1 20 with order := none }]
    ∧ (export_xlsx (fun _ => Response.mk 400 []) none none none "recientes" 1 20).2 =
        Except.error ExportError.fetchFailure :=
  ⟨(c2_order_fallback (fun _ => Response.mk 400 []) none none none "recientes" 1 20
      (Or.inl rfl)).1,
   (c2_order_fallback (fun _ => Response.mk 400 []) none none none "recientes" 1 20
      (Or.inl rfl)).2.2.2.2.2 (by decide)⟩

/-- C9: when the export fetch succeeds with zero rows, the exporter signals
the dedicated nothing-to-export condition (HTTP 204), produces no artifact,
and does not report a fetch failure (whose status is 502). -/
theorem c9_zero_rows (fetch : Params → Response)
    (codigos estado texto : Option String) (orden : String) (page limit : Nat)
    (h : (exportFetch fetch (exportInitParams codigos estado texto orden page limit)).2 =
      Except.ok []) :
    (export_xlsx fetch codigos estado texto orden page limit).2 =
      Except.error ExportError.nothingToExport
    ∧ (∀ recs, (export_xlsx fetch codigos estado texto orden page limit).2 ≠ Except.ok recs)
    ∧ (export_xlsx fetch codigos estado texto orden page limit).2 ≠
        Except.error ExportError.fetchFailure
    ∧ errStatus ExportError.nothingToExport = 204
    ∧ errStatus ExportError.fetchFailure = 502 := by
  have hmain : (export_xlsx fetch codigos estado texto orden page limit).2 =
      Except.error ExportError.nothingToExport := by
    simp only [export_xlsx]
    rw [h]
    rfl
  refine ⟨hmain, ?_, ?_, rfl, rfl⟩
  · intro recs
    rw [hmain]
    intro hcontra
    exact Except.noConfusion hcontra
  · rw [hmain]
    intro hcontra
    have := Except.error.inj hcontra
    exact ExportError.noConfusion this

/-- C9 witness: a fetch oracle answering 200 with an empty body. -/
theorem c9_zero_rows_w :
    (export_xlsx (fun _ => Response.mk 200 []) none none none "recientes" 1 20).2 =
      Except.error ExportError.nothingToExport :=
  (c9_zero_rows (fun _ => Response.mk 200 []) none none none "recientes" 1 20 rfl).1

/-- C10: the keyword input "%" survives the whitespace/comma split as a
non-empty term, is sanitised to the empty string, compiles to the clause
UPPER(descripci_n_del_procedimiento) LIKE with the pattern between quotes
being two wildcards, which matches every character sequence under the
modelled remote LIKE semantics; the filter expression is therefore present
and interactive mode issues exactly one fetch carrying it. -/
theorem c10_wildcard_only (fetch : Params → Response) (page : Nat) :
    splitTerms "%" = ["%"]
    ∧ sanitize_like_term "%" = ""
    ∧ (build_where_and_order none none (some "%") "recientes").1 = some (termClause "%")
    ∧ termClause "%" =
        "(UPPER(descripci_n_del_procedimiento) LIKE " ++ sq ++ "%%" ++ sq ++ ")"
    ∧ (home fetch none none (some "%") "recientes" page).1 =
        [{ limit := 20, offset := (page - 1) * 20,
           order := some "fecha_de_publicacion_del DESC", whereExpr := some (termClause "%") }]
    ∧ (∀ text : List Char, likeMatch ['%', '%'] text = true) := by
  refine ⟨by decide, by decide, by decide, by decide, ?_, likeMatch_double_pct⟩
  rfl

end Secop
